import Mathlib

/-!
Shallow embedding of the winwin8 storefront backend (src/server.js, with the
earlier revisions src/unnamed/part_001 and src/unnamed/part_002 embedded in
the namespaces P1 and P2 where a claim cites them).

Modelling conventions:
- JavaScript objects with optional keys become structures of Option fields;
  a field equal to none models an absent key.
- Machine numbers (prices, amounts, timestamps) are modelled as Int or Nat;
  the JavaScript parseFloat is modelled up to truncation of the fractional
  part, which is irrelevant to every claim (only parse success or failure
  and field presence matter).
- The PostgreSQL driver is modelled by its observable behaviour on the
  tables the code creates: an INSERT fails exactly when a NOT NULL column
  receives null or a UNIQUE column receives a duplicate, and a DECIMAL
  parameter fails to cast when the supplied string is not numeric.
  Rows written by this program never put null in description or image_url
  (addProduct always supplies defaults), so those columns are plain String.
- A try/catch that converts a backend failure into a default value is
  modelled by an explicit Option state (none models an unreadable file or
  a failed query) where a claim depends on the error path.
- bcrypt.hashSync with a random salt is modelled by an executable injection
  bcryptHash tagged with the salt; bcrypt.compareSync checks the plaintext
  against the tail of the stored hash.
-/

/-- A JavaScript primitive as it occurs in request bodies: either a number
or a string.  Only these two cases reach the price and amount fields. -/
inductive JsVal where
  | num : Int → JsVal
  | str : String → JsVal
deriving DecidableEq, Repr

/-- Value of a list of decimal digit characters. -/
def digitsToNat (l : List Char) : Nat :=
  l.foldl (fun a c => a * 10 + (c.toNat - 48)) 0

/-- Leading-number part of the JavaScript parseFloat: digits, or a decimal
point followed by a digit (value truncated to its integer part). -/
def parseLeadNum (cs : List Char) : Option Nat :=
  match cs.takeWhile Char.isDigit with
  | [] =>
    match cs with
    | '.' :: d :: _ => if d.isDigit then some 0 else none
    | _ => none
  | ds => some (digitsToNat ds)

/-- JavaScript parseFloat on a string, modelled for leading spaces, an
optional sign, digits and a decimal point; none models NaN. -/
def parseFloatStr (s : String) : Option Int :=
  match s.data.dropWhile (fun c => c == ' ') with
  | '-' :: r => (parseLeadNum r).map (fun n => -(n : Int))
  | '+' :: r => (parseLeadNum r).map (fun n => (n : Int))
  | r => (parseLeadNum r).map (fun n => (n : Int))

/-- JavaScript parseFloat applied to an optional value: an absent value is
undefined and parses to NaN, a number parses to itself. -/
def parseFloatVal : Option JsVal → Option Int
  | none => none
  | some (.num n) => some n
  | some (.str s) => parseFloatStr s

/-- Strict numeric literal accepted by a PostgreSQL DECIMAL cast: optional
sign, digits, at most one decimal point, nothing else. -/
def pgNumericStr (s : String) : Option Int :=
  let core : List Char → Option Nat := fun l =>
    let ds := l.takeWhile Char.isDigit
    match l.drop ds.length with
    | [] => if ds.isEmpty then none else some (digitsToNat ds)
    | '.' :: fs =>
      if fs.all Char.isDigit && (!ds.isEmpty || !fs.isEmpty) then
        some (digitsToNat ds)
      else none
    | _ => none
  match s.data.dropWhile (fun c => c == ' ') with
  | '-' :: r => (core r).map (fun n => -(n : Int))
  | '+' :: r => (core r).map (fun n => (n : Int))
  | r => (core r).map (fun n => (n : Int))

/-- A parameter bound to a DECIMAL NOT NULL column: an absent value becomes
null and violates NOT NULL, a string must cast as numeric. -/
def pgNumericOfVal : Option JsVal → Option Int
  | none => none
  | some (.num n) => some n
  | some (.str s) => pgNumericStr s

/-- A parameter bound to a nullable INTEGER column: some none is SQL null,
none models a failed cast. -/
def pgIntOpt : Option JsVal → Option (Option Int)
  | none => some none
  | some (.num n) => some (some n)
  | some (.str s) =>
    match pgNumericStr s with
    | some n => some (some n)
    | none => none

/-- The JavaScript fallback chain v or-else d on strings, where the empty
string is falsy. -/
def jsStrOr (v d : String) : String :=
  if v = "" then d else v

/-- The JavaScript fallback chain on an optional string: absent or empty
falls through to the default. -/
def jsOptOr (o : Option String) (d : String) : String :=
  match o with
  | some v => jsStrOr v d
  | none => d

/-- The fallback chain a or b or false over two optional boolean fields,
exactly the admin-flag computation of the source. -/
def adminOr (a b : Option Bool) : Bool :=
  (a == some true) || (b == some true)

/-- Spread-style merge of one optional field: a key present in the patch
wins even when its value is the empty string. -/
def optPresent (p c : Option String) : Option String :=
  match p with
  | some v => some v
  | none => c

/-- bcrypt.hashSync modelled as an executable salted injection.  The salt
digits never contain the separator, so the plaintext is the part after the
first hash mark. -/
def bcryptHash (salt : Nat) (pw : String) : String :=
  toString salt ++ "#" ++ pw

/-- bcrypt.compareSync: the candidate plaintext matches the stored hash
exactly when the hash tail after the first separator equals it. -/
def bcryptCompare (pw h : String) : Bool :=
  h.data.dropWhile (fun c => c != '#') == '#' :: pw.data

/-- The order-number generator of the route layer:
now.getTime().toString().slice(-8) prefixed with DD. -/
def last8 (n : Nat) : String :=
  let l := (toString n).data
  String.mk (l.drop (l.length - 8))

/-- A row of the products table, as written by this program: id SERIAL,
name and price NOT NULL, description and image_url always supplied by
addProduct, created_at and updated_at timestamps. -/
structure DbProductRow where
  id : Nat
  name : String
  price : Int
  description : String
  image_url : String
  created_at : Nat
  updated_at : Nat
deriving DecidableEq, Repr

/-- An open product object as it travels through JavaScript: request body,
file-stored record and returned record share this shape.  A field equal to
none models an absent key. -/
structure ProductObj where
  id : Option Nat := none
  name : Option String := none
  price : Option JsVal := none
  description : Option String := none
  image : Option String := none
  imageUrl : Option String := none
  image_url : Option String := none
  createdAt : Option Nat := none
  created_at : Option Nat := none
  updated_at : Option Nat := none
deriving DecidableEq, Repr

/-- The list of key names present on a product object, in a fixed order.
This is what a caller observes of the record shape. -/
def ProductObj.keys (r : ProductObj) : List String :=
  (match r.id with | some _ => ["id"] | none => []) ++
  (match r.name with | some _ => ["name"] | none => []) ++
  (match r.price with | some _ => ["price"] | none => []) ++
  (match r.description with | some _ => ["description"] | none => []) ++
  (match r.image with | some _ => ["image"] | none => []) ++
  (match r.imageUrl with | some _ => ["imageUrl"] | none => []) ++
  (match r.image_url with | some _ => ["image_url"] | none => []) ++
  (match r.createdAt with | some _ => ["createdAt"] | none => []) ++
  (match r.created_at with | some _ => ["created_at"] | none => []) ++
  (match r.updated_at with | some _ => ["updated_at"] | none => [])

/-- A row of the orders table: order_number, product_name, product_price
and total_amount NOT NULL, user_id and product_id nullable. -/
structure DbOrderRow where
  id : Nat
  order_number : String
  user_id : Option Int
  product_id : Option Int
  product_name : String
  product_price : Int
  total_amount : Int
  payment_method : String
  status : String
  created_at : Nat
  updated_at : Nat
deriving DecidableEq, Repr

/-- An open order object on the JavaScript side. -/
structure OrderObj where
  id : Option Nat := none
  orderNumber : Option String := none
  userId : Option JsVal := none
  productId : Option JsVal := none
  productName : Option String := none
  productPrice : Option JsVal := none
  totalAmount : Option JsVal := none
  paymentMethod : Option String := none
  status : Option String := none
  createdAt : Option Nat := none
deriving DecidableEq, Repr

/-- A row of the users table.  is_admin has no NOT NULL constraint, so it
is kept optional; created_at always receives the column default. -/
structure DbUserRow where
  id : Nat
  username : String
  password : String
  is_admin : Option Bool
  created_at : Nat
  last_login : Option Nat
deriving DecidableEq, Repr

/-- A user object stored in the JSON document.  Users written by this
program (the seeded admin and registered users) always carry a username
and a password hash; every other key is optional. -/
structure FileUser where
  id : Option Nat := none
  username : String
  password : String
  isAdmin : Option Bool := none
  is_admin : Option Bool := none
  createdAt : Option Nat := none
  lastLogin : Option Nat := none
deriving DecidableEq, Repr

/-- A user object as returned to a caller of the user operations. -/
structure UserOut where
  id : Option Nat := none
  username : Option String := none
  password : Option String := none
  isAdmin : Option Bool := none
  is_admin : Option Bool := none
  createdAt : Option Nat := none
  lastLogin : Option Nat := none
deriving DecidableEq, Repr

/-- The settings object of the JSON document; also the shape of a partial
update sent by a caller. -/
structure FileSettings where
  storeName : Option String := none
  kuaishouLink : Option String := none
  contactInfo : Option String := none
  welcomeMessage : Option String := none
deriving DecidableEq, Repr

/-- The singleton settings row of the relational store, with the columns
the code reads and writes.  The updated_at timestamp is never read back
and is omitted. -/
structure DbSettingsRow where
  store_name : String
  kuaishou_link : String
  contact_info : String
  welcome_message : String
deriving DecidableEq, Repr

/-- The fully populated settings object produced by the settings route. -/
structure SettingsOut where
  storeName : String
  kuaishouLink : String
  contactInfo : String
  welcomeMessage : String
deriving DecidableEq, Repr

/-- The whole JSON document of the file backend: one object holding the
four collections. -/
structure FileData where
  users : List FileUser := []
  products : List ProductObj := []
  orders : List OrderObj := []
  settings : FileSettings := {}
deriving DecidableEq, Repr

/-- Baked-in store name default. -/
def defaultStoreName : String := "CPMCY商城"

/-- Baked-in promotion link default. -/
def defaultKuaishouLink : String := "https://v.kuaishou.com/JGv00n48"

/-- Baked-in contact info default. -/
def defaultContactInfo : String := "FB账号GH Tree"

/-- Baked-in welcome message default. -/
def defaultWelcomeMessage : String := "欢迎选购！点击购买扫码完成付款"

/-- Placeholder image used when a product input carries no image. -/
def placeholderImage : String := "https://via.placeholder.com/300x200?text=商品"

/-- Descending insertion by created_at, embedding ORDER BY created_at DESC. -/
def insertDescP (r : DbProductRow) : List DbProductRow → List DbProductRow
  | [] => [r]
  | x :: xs =>
    if x.created_at ≤ r.created_at then r :: x :: xs else x :: insertDescP r xs

/-- Sort of the products result set by created_at descending. -/
def sortDescP (l : List DbProductRow) : List DbProductRow :=
  l.foldr insertDescP []

/-- The record a pg row surfaces to JavaScript: every column appears as a
snake_case key and nothing else. -/
def dbProductToObj (r : DbProductRow) : ProductObj :=
  { id := some r.id, name := some r.name, price := some (JsVal.num r.price),
    description := some r.description, image_url := some r.image_url,
    created_at := some r.created_at, updated_at := some r.updated_at }

/-- getProducts of server.js, relational branch: SELECT * FROM products
ORDER BY created_at DESC, with a failed query caught and turned into the
empty list (ok models query success). -/
def getProducts_db (ok : Bool) (rows : List DbProductRow) : List ProductObj :=
  if ok then (sortDescP rows).map dbProductToObj else []

/-- getProducts of server.js, file branch: the stored products array is
returned exactly as stored; an unreadable data file yields the empty
list. -/
def getProducts_file (data : Option FileData) : List ProductObj :=
  match data with
  | some d => d.products
  | none => []

/-- addProduct of server.js, relational branch: the INSERT succeeds exactly
when name is present and price casts as numeric; description and image
receive their falsy-chain defaults. -/
def addProduct_db (p : ProductObj) (newId now : Nat) : Option DbProductRow :=
  match p.name, pgNumericOfVal p.price with
  | some nm, some pr =>
    some { id := newId, name := nm, price := pr,
           description := jsOptOr p.description "",
           image_url := jsOptOr p.image placeholderImage,
           created_at := now, updated_at := now }
  | _, _ => none

/-- addProduct of server.js, file branch: no validation at all — the input
object is augmented with id and createdAt, appended and returned.  none
models the unreadable-file branch that returns null. -/
def addProduct_file (data : Option FileData) (p : ProductObj) (now : Nat) :
    Option (ProductObj × FileData) :=
  data.map fun d =>
    let q := { p with id := some now, createdAt := some now }
    (q, { d with products := d.products ++ [q] })

/-- The POST /api/orders route of server.js: a missing or empty orderNumber
is synthesized as DD plus the last eight digits of the epoch-millisecond
time before the order is stored. -/
def ordersPost (body : OrderObj) (nowMs : Nat) : OrderObj :=
  match body.orderNumber with
  | some s => if s = "" then { body with orderNumber := some ("DD" ++ last8 nowMs) } else body
  | none => { body with orderNumber := some ("DD" ++ last8 nowMs) }

/-- addOrder of server.js, relational branch: the INSERT succeeds exactly
when the NOT NULL columns order_number, product_name, product_price and
total_amount receive values, the numeric parameters cast, and the order
number is not a duplicate. -/
def addOrder_db (rows : List DbOrderRow) (o : OrderObj) (newId now : Nat) :
    Option DbOrderRow :=
  match o.orderNumber, o.productName, pgNumericOfVal o.productPrice,
        pgNumericOfVal o.totalAmount, pgIntOpt o.userId, pgIntOpt o.productId with
  | some onum, some pn, some pp, some ta, some uid, some pid =>
    if rows.any (fun r => r.order_number == onum) then none
    else
      some { id := newId, order_number := onum, user_id := uid,
             product_id := pid, product_name := pn, product_price := pp,
             total_amount := ta,
             payment_method := jsOptOr o.paymentMethod "tng",
             status := jsOptOr o.status "pending",
             created_at := now, updated_at := now }
  | _, _, _, _, _, _ => none

/-- addOrder of server.js, file branch: the input object is augmented with
id and createdAt, appended and returned without any defaulting. -/
def addOrder_file (data : Option FileData) (o : OrderObj) (now : Nat) :
    Option (OrderObj × FileData) :=
  data.map fun d =>
    let q := { o with id := some now, createdAt := some now }
    (q, { d with orders := d.orders ++ [q] })

/-- authenticateUser of server.js, relational branch: the first row with
the username is checked against the hash; on success a literal object is
returned that keeps the stored password and recomputes the admin flag by
the falsy chain (a pg row has no camelCase keys, so the second source is
absent). -/
def authenticateUser_db (users : List DbUserRow) (username password : String) :
    Option UserOut :=
  match users.find? (fun u => u.username == username) with
  | none => none
  | some u =>
    if bcryptCompare password u.password then
      some { id := some u.id, username := some u.username,
             password := some u.password,
             isAdmin := some (adminOr u.is_admin none),
             is_admin := some (adminOr u.is_admin none),
             createdAt := some u.created_at, lastLogin := u.last_login }
    else none

/-- authenticateUser of server.js, file branch: the stored user object is
spread into the result with the admin flag recomputed across both of its
source spellings. -/
def authenticateUser_file (data : FileData) (username password : String) :
    Option UserOut :=
  match data.users.find? (fun u => u.username == username) with
  | none => none
  | some u =>
    if bcryptCompare password u.password then
      some { id := u.id, username := some u.username,
             password := some u.password,
             isAdmin := some (adminOr u.isAdmin u.is_admin),
             is_admin := some (adminOr u.isAdmin u.is_admin),
             createdAt := u.createdAt, lastLogin := u.lastLogin }
    else none

/-- The POST /api/login route on a successful authentication: a fresh
object is built without a password key. -/
def loginShape (u : UserOut) : UserOut :=
  { id := u.id, username := u.username, password := none,
    isAdmin := some (adminOr u.isAdmin u.is_admin),
    createdAt := u.createdAt, lastLogin := u.lastLogin }

/-- The login route over the relational branch. -/
def loginRoute_db (users : List DbUserRow) (username password : String) :
    Option UserOut :=
  (authenticateUser_db users username password).map loginShape

/-- The login route over the file branch. -/
def loginRoute_file (data : FileData) (username password : String) :
    Option UserOut :=
  (authenticateUser_file data username password).map loginShape

/-- registerUser of server.js, relational branch: the INSERT violates the
UNIQUE constraint exactly when the username exists; on success the
RETURNING row is reshaped into a literal object without timestamp keys.
Returns the result together with the new table state. -/
def registerUser_db (users : List DbUserRow) (username password : String)
    (salt newId now : Nat) : Option UserOut × List DbUserRow :=
  if users.any (fun u => u.username == username) then (none, users)
  else
    let hp := bcryptHash salt password
    let row : DbUserRow :=
      { id := newId, username := username, password := hp,
        is_admin := some false, created_at := now, last_login := none }
    (some { id := some newId, username := some username, password := some hp,
            isAdmin := some false, is_admin := some false },
     users ++ [row])

/-- registerUser of server.js, file branch: a duplicate username yields
null, otherwise the new user object holds exactly username, password hash
and the two admin flags, and is both persisted and returned. -/
def registerUser_file (data : FileData) (username password : String)
    (salt : Nat) : Option UserOut × FileData :=
  if data.users.any (fun u => u.username == username) then (none, data)
  else
    let hp := bcryptHash salt password
    let newUser : FileUser :=
      { username := username, password := hp,
        isAdmin := some false, is_admin := some false }
    (some { id := none, username := some username, password := some hp,
            isAdmin := some false, is_admin := some false },
     { data with users := data.users ++ [newUser] })

/-- getSettings of server.js, relational branch: the first settings row or
null. -/
def getSettings_db (st : Option DbSettingsRow) : Option DbSettingsRow := st

/-- getSettings of server.js, file branch: the settings member of the
document, or null when the file is unreadable. -/
def getSettings_file (data : Option FileData) : Option FileSettings :=
  data.map (·.settings)

/-- Spread merge of a partial settings object into the current one: a key
present in the patch wins, an absent key keeps the prior value. -/
def mergeSettings (cur patch : FileSettings) : FileSettings :=
  { storeName := optPresent patch.storeName cur.storeName,
    kuaishouLink := optPresent patch.kuaishouLink cur.kuaishouLink,
    contactInfo := optPresent patch.contactInfo cur.contactInfo,
    welcomeMessage := optPresent patch.welcomeMessage cur.welcomeMessage }

/-- updateSettings of server.js, file branch: spread merge, persist, and
return the merged object together with the new document. -/
def updateSettings_file (data : FileData) (patch : FileSettings) :
    FileSettings × FileData :=
  let m := mergeSettings data.settings patch
  (m, { data with settings := m })

/-- updateSettings of server.js, relational branch: with an existing row
every column is rewritten through the falsy chain patch-or-existing; with
no row a fresh row is inserted with patch-or-default values.  Returns the
resulting row and the new table state. -/
def updateSettings_db (st : Option DbSettingsRow) (patch : FileSettings) :
    Option DbSettingsRow × Option DbSettingsRow :=
  match st with
  | some ex =>
    let row : DbSettingsRow :=
      { store_name := jsOptOr patch.storeName ex.store_name,
        kuaishou_link := jsOptOr patch.kuaishouLink ex.kuaishou_link,
        contact_info := jsOptOr patch.contactInfo ex.contact_info,
        welcome_message := jsOptOr patch.welcomeMessage ex.welcome_message }
    (some row, some row)
  | none =>
    let row : DbSettingsRow :=
      { store_name := jsOptOr patch.storeName defaultStoreName,
        kuaishou_link := jsOptOr patch.kuaishouLink "",
        contact_info := jsOptOr patch.contactInfo "",
        welcome_message := jsOptOr patch.welcomeMessage "" }
    (some row, some row)

/-- The full default settings object the GET /api/settings route returns
when no settings record exists at all. -/
def fullDefaultSettingsOut : SettingsOut :=
  { storeName := defaultStoreName, kuaishouLink := defaultKuaishouLink,
    contactInfo := defaultContactInfo, welcomeMessage := defaultWelcomeMessage }

/-- GET /api/settings over the relational branch: a present row is pushed
through the falsy chains (a row has no camelCase keys); a missing row
yields the full default object. -/
def settingsGetRoute_db (st : Option DbSettingsRow) : SettingsOut :=
  match getSettings_db st with
  | some s =>
    { storeName := jsStrOr s.store_name defaultStoreName,
      kuaishouLink := jsStrOr s.kuaishou_link "",
      contactInfo := jsStrOr s.contact_info "",
      welcomeMessage := jsStrOr s.welcome_message "" }
  | none => fullDefaultSettingsOut

/-- GET /api/settings over the file branch: the stored camelCase fields are
pushed through the falsy chains (the snake_case sources are absent on a
file object); an unreadable file yields the full default object. -/
def settingsGetRoute_file (data : Option FileData) : SettingsOut :=
  match getSettings_file data with
  | some s =>
    { storeName := jsOptOr s.storeName defaultStoreName,
      kuaishouLink := jsOptOr s.kuaishouLink "",
      contactInfo := jsOptOr s.contactInfo "",
      welcomeMessage := jsOptOr s.welcomeMessage "" }
  | none => fullDefaultSettingsOut

/-- getProducts of the part_001 revision, relational branch mapping: each
row is reshaped into a dual object carrying both the snake_case and the
camelCase spelling of every field. -/
def P1.dbProductToObj (r : DbProductRow) : ProductObj :=
  { id := some r.id, name := some r.name, price := some (JsVal.num r.price),
    description := some r.description,
    image := some r.image_url, image_url := some r.image_url,
    createdAt := some r.created_at, created_at := some r.created_at }

/-- getProducts of the part_001 revision, relational branch: the sorted
result set pushed through the dual mapping; a failure yields the empty
list. -/
def P1.getProducts_db (ok : Bool) (rows : List DbProductRow) : List ProductObj :=
  if ok then (sortDescP rows).map P1.dbProductToObj else []

/-- addProduct of the part_001 revision, file branch: every field is
defaulted and written in both spellings, so stored file products carry the
same dual shape as mapped relational rows.  The read helper of this
revision never yields null, so no Option layer is needed. -/
def P1.addProduct_file (data : FileData) (p : ProductObj) (now : Nat) :
    ProductObj × FileData :=
  let img := jsOptOr p.image (jsOptOr p.image_url placeholderImage)
  let q : ProductObj :=
    { id := some now, name := some (jsOptOr p.name ""),
      price := some (JsVal.num ((parseFloatVal p.price).getD 0)),
      description := some (jsOptOr p.description ""),
      image := some img, image_url := some img,
      createdAt := some now, created_at := some now }
  (q, { data with products := data.products ++ [q] })

/-- addProduct of the part_002 revision, relational branch: the price is
validated with parseFloat and a NaN is rejected before the INSERT; a
missing name still reaches the NOT NULL column and fails there. -/
def P2.addProduct_db (p : ProductObj) (newId now : Nat) : Option DbProductRow :=
  match parseFloatVal p.price with
  | none => none
  | some pr =>
    match p.name with
    | none => none
    | some nm =>
      some { id := newId, name := nm, price := pr,
             description := jsOptOr p.description "",
             image_url := jsOptOr p.image (jsOptOr p.image_url placeholderImage),
             created_at := now, updated_at := now }

/-- addProduct of the part_002 revision, file branch: only the price is
validated; the name key is copied through even when absent, so a product
without a name is accepted. -/
def P2.addProduct_file (data : FileData) (p : ProductObj) (now : Nat) :
    Option (ProductObj × FileData) :=
  match parseFloatVal p.price with
  | none => none
  | some pr =>
    let q : ProductObj :=
      { id := some now, name := p.name, price := some (JsVal.num pr),
        description := some (jsOptOr p.description ""),
        image := some (jsOptOr p.image (jsOptOr p.image_url placeholderImage)),
        createdAt := some now }
    some (q, { data with products := data.products ++ [q] })

/-- The key list shared by relational records of server.js getProducts. -/
def serverDbShape : List String :=
  ["id", "name", "price", "description", "image_url", "created_at", "updated_at"]

/-- The dual key list of every record the part_001 revision returns. -/
def dualShape : List String :=
  ["id", "name", "price", "description", "image", "image_url", "createdAt", "created_at"]

/-- A bootstrapped admin row of the relational store. -/
def demoAdminRow : DbUserRow :=
  { id := 1, username := "admin", password := bcryptHash 1 "admin123",
    is_admin := some true, created_at := 50, last_login := none }

/-- A one-user relational store. -/
def demoDbUsers : List DbUserRow := [demoAdminRow]

/-- The seeded admin of the file store, which carries only username,
password hash and the camelCase admin flag. -/
def demoAdminFileUser : FileUser :=
  { username := "admin", password := bcryptHash 1 "admin123", isAdmin := some true }

/-- The settings object the file store is initialized with. -/
def demoFileSettings : FileSettings :=
  { storeName := some defaultStoreName, kuaishouLink := some defaultKuaishouLink,
    contactInfo := some defaultContactInfo, welcomeMessage := some defaultWelcomeMessage }

/-- A freshly initialized file document. -/
def demoFileData : FileData :=
  { users := [demoAdminFileUser], products := [], orders := [],
    settings := demoFileSettings }

/-- A concrete relational product row. -/
def demoDbProduct : DbProductRow :=
  { id := 1, name := "Widget", price := 5, description := "",
    image_url := "http://img", created_at := 100, updated_at := 100 }

/-- A concrete product creation request. -/
def demoProductInput : ProductObj :=
  { name := some "Gadget", price := some (JsVal.num 3),
    description := some "d", image := some "http://img2" }

/-- A product input with no fields at all. -/
def emptyProductIn : ProductObj := {}

/-- A product input whose name is missing but whose price parses. -/
def noNameProductIn : ProductObj := { price := some (JsVal.str "5") }

/-- An order creation request with no fields at all. -/
def emptyOrderIn : OrderObj := {}

/-- A stored file product with the older creation time. -/
def demoOldProduct : ProductObj :=
  { id := some 1, name := some "Old", price := some (JsVal.num 1), createdAt := some 100 }

/-- A stored file product with the newer creation time. -/
def demoNewProduct : ProductObj :=
  { id := some 2, name := some "New", price := some (JsVal.num 2), createdAt := some 200 }

/-- A file document whose products were appended oldest first. -/
def demoFileProducts : FileData :=
  { products := [demoOldProduct, demoNewProduct] }

/-- The exact object authenticateUser returns for the demo admin. -/
def demoAuthOut : UserOut :=
  { id := some 1, username := some "admin",
    password := some (bcryptHash 1 "admin123"),
    isAdmin := some true, is_admin := some true,
    createdAt := some 50, lastLogin := none }

/-- The exact object the login route returns for the demo admin. -/
def demoLoginOut : UserOut :=
  { id := some 1, username := some "admin", password := none,
    isAdmin := some true, createdAt := some 50, lastLogin := none }

/-- The exact object registerUser returns for a fresh registration in the
file store. -/
def demoRegOut : UserOut :=
  { id := none, username := some "bob", password := some (bcryptHash 2 "pw111"),
    isAdmin := some false, is_admin := some false }

/-- The partial update that sets only the store name. -/
def patchX : FileSettings := { storeName := some "X" }

/-- A file document whose stored store name is the empty string. -/
def demoEmptyNameSettings : FileData :=
  { settings := { storeName := some "", kuaishouLink := some "L",
                  contactInfo := some "C", welcomeMessage := some "W" } }

/-- Membership in the descending insertion. -/
theorem mem_insertDescP {a r : DbProductRow} {l : List DbProductRow} :
    a ∈ insertDescP r l ↔ a = r ∨ a ∈ l := by
  induction l with
  | nil => simp [insertDescP]
  | cons x xs ih =>
    by_cases h : x.created_at ≤ r.created_at
    · simp [insertDescP, h]
    · simp [insertDescP, h, ih]
      tauto

/-- Insertion preserves the descending pairwise order. -/
theorem pairwise_insertDescP {r : DbProductRow} {l : List DbProductRow}
    (h : l.Pairwise (fun a b => b.created_at ≤ a.created_at)) :
    (insertDescP r l).Pairwise (fun a b => b.created_at ≤ a.created_at) := by
  induction l with
  | nil => simp [insertDescP]
  | cons x xs ih =>
    rcases List.pairwise_cons.mp h with ⟨hx, hxs⟩
    by_cases hle : x.created_at ≤ r.created_at
    · simp only [insertDescP, if_pos hle]
      refine List.pairwise_cons.mpr ⟨?_, h⟩
      intro b hb
      rcases List.mem_cons.mp hb with rfl | hb
      · exact hle
      · exact le_trans (hx b hb) hle
    · simp only [insertDescP, if_neg hle]
      refine List.pairwise_cons.mpr ⟨?_, ih hxs⟩
      intro b hb
      rcases mem_insertDescP.mp hb with rfl | hb
      · exact le_of_not_le hle
      · exact hx b hb

/-- The descending sort produces a pairwise descending list. -/
theorem pairwise_sortDescP (l : List DbProductRow) :
    (sortDescP l).Pairwise (fun a b => b.created_at ≤ a.created_at) := by
  induction l with
  | nil => simp [sortDescP]
  | cons x xs ih =>
    exact pairwise_insertDescP ih

/-- The descending sort is a permutation membership-wise. -/
theorem mem_sortDescP {a : DbProductRow} {l : List DbProductRow} :
    a ∈ sortDescP l ↔ a ∈ l := by
  induction l with
  | nil => simp [sortDescP]
  | cons x xs ih =>
    show a ∈ insertDescP x (sortDescP xs) ↔ _
    rw [mem_insertDescP]
    simp [ih, eq_comm]

/-- The salted hash is never the plaintext it was derived from. -/
theorem bcryptHash_ne_plain (s : Nat) (pw : String) : bcryptHash s pw ≠ pw := by
  intro h
  have hlen := congrArg String.length h
  have h1 : ("#" : String).length = 1 := rfl
  simp [bcryptHash, String.length_append, h1] at hlen

/-- C1 counterexample: with the relational backend active, the one record
the product listing returns carries the snake_case keys image_url and
created_at; with the file backend active, the record stored by addProduct
carries image and createdAt instead, so the two backends are observable
from the key lists, and the canonical camelCase key imageUrl occurs in
neither. -/
theorem c1_shape_counterexample :
    (getProducts_db true [demoDbProduct]).map ProductObj.keys = [serverDbShape] ∧
    (getProducts_file ((addProduct_file (some demoFileData) demoProductInput 200).map
        Prod.snd)).map ProductObj.keys =
      [["id", "name", "price", "description", "image", "createdAt"]] ∧
    serverDbShape ≠ ["id", "name", "price", "description", "image", "createdAt"] ∧
    "imageUrl" ∉ serverDbShape := by
  decide

/-- C1 amended: in server.js, getProducts returns backend-native shapes —
every relational record has exactly the snake_case column keys, while the
file branch returns the stored objects unchanged and addProduct only adds
id and createdAt to the caller object, so the active backend is observable
from the field names.  In the part_001 revision both backends yield one
uniform dual shape carrying the snake_case and camelCase spellings
together. -/
theorem c1_shape_amended :
    (∀ rows : List DbProductRow,
       (getProducts_db true rows).all (fun r => r.keys == serverDbShape) = true) ∧
    (∀ (d : FileData) (p : ProductObj) (now : Nat),
       (addProduct_file (some d) p now).map (fun x => x.1) =
         some { p with id := some now, createdAt := some now }) ∧
    (∀ d : FileData, getProducts_file (some d) = d.products) ∧
    (∀ rows : List DbProductRow,
       (P1.getProducts_db true rows).all (fun r => r.keys == dualShape) = true) ∧
    (∀ (d : FileData) (p : ProductObj) (now : Nat),
       ((P1.addProduct_file d p now).1).keys = dualShape) := by
  refine ⟨?_, ?_, ?_, ?_, ?_⟩
  · intro rows
    rw [List.all_eq_true]
    intro r hr
    rw [getProducts_db, if_pos rfl, List.mem_map] at hr
    obtain ⟨s, _, rfl⟩ := hr
    rfl
  · intro d p now
    rfl
  · intro d
    rfl
  · intro rows
    rw [List.all_eq_true]
    intro r hr
    rw [P1.getProducts_db, if_pos rfl, List.mem_map] at hr
    obtain ⟨s, _, rfl⟩ := hr
    rfl
  · intro d p now
    rfl

/-- C8 counterexample: under the file backend the listing returns the
stored order, oldest first — the record with creation time 100 precedes
the one with creation time 200, so the sequence is not most-recent-first. -/
theorem c8_order_counterexample :
    (getProducts_file (some demoFileProducts)).map ProductObj.createdAt =
      [some 100, some 200] ∧
    ¬ (getProducts_file (some demoFileProducts)).Pairwise
        (fun a b => b.createdAt.getD 0 ≤ a.createdAt.getD 0) := by
  constructor
  · rfl
  · intro h
    have hx := (List.pairwise_cons.mp h).1 demoNewProduct (by decide)
    revert hx
    decide

/-- C8 amended: only the relational branch of getProducts orders the
result most-recent-first (created_at descending), and both branches turn a
backend error into the empty sequence; the file branch returns the stored
products in their stored, oldest-first insertion order. -/
theorem c8_order_amended :
    (∀ rows : List DbProductRow,
       (getProducts_db true rows).Pairwise
         (fun a b => b.created_at.getD 0 ≤ a.created_at.getD 0)) ∧
    (∀ rows : List DbProductRow, getProducts_db false rows = []) ∧
    getProducts_file none = [] ∧
    (∀ d : FileData, getProducts_file (some d) = d.products) := by
  refine ⟨?_, ?_, rfl, fun _ => rfl⟩
  · intro rows
    rw [getProducts_db, if_pos rfl]
    exact (pairwise_sortDescP rows).map dbProductToObj
      (fun a b hab => by simpa [dbProductToObj] using hab)
  · intro rows
    rfl

/-- C2 counterexample: an input with no name and no price is accepted by
the file branch of addProduct in server.js — a Product is returned, not a
validation failure. -/
theorem c2_validation_counterexample :
    emptyProductIn.name = none ∧ emptyProductIn.price = none ∧
    (addProduct_file (some demoFileData) emptyProductIn 5).isSome = true := by
  decide

/-- C2 amended: only the relational branch of addProduct in server.js
rejects a missing name or a non-numeric price (through the column
constraints), and it accepts every input with a name and a numeric price;
the file branch of server.js performs no validation and returns a Product
for every input.  In the part_002 revision both branches reject a price
that does not parse as a number, but its file branch still accepts an
input whose name is missing. -/
theorem c2_validation_amended :
    (∀ (p : ProductObj) (newId now : Nat),
       p.name = none ∨ pgNumericOfVal p.price = none →
         addProduct_db p newId now = none) ∧
    (∀ (p : ProductObj) (newId now : Nat),
       p.name.isSome → (pgNumericOfVal p.price).isSome →
         (addProduct_db p newId now).isSome) ∧
    (∀ (d : FileData) (p : ProductObj) (now : Nat),
       addProduct_file (some d) p now =
         some ({ p with id := some now, createdAt := some now },
               { d with products :=
                   d.products ++ [{ p with id := some now, createdAt := some now }] })) ∧
    (∀ (p : ProductObj) (newId now : Nat),
       parseFloatVal p.price = none →
         P2.addProduct_db p newId now = none ∧
         ∀ d : FileData, P2.addProduct_file d p now = none) ∧
    (∀ (d : FileData) (p : ProductObj) (now : Nat),
       (parseFloatVal p.price).isSome → (P2.addProduct_file d p now).isSome) := by
  refine ⟨?_, ?_, ?_, ?_, ?_⟩
  · intro p newId now h
    rcases h with h | h <;>
      cases hn : p.name <;> cases hp : pgNumericOfVal p.price <;>
        simp_all [addProduct_db]
  · intro p newId now hn hp
    cases h1 : p.name <;> cases h2 : pgNumericOfVal p.price <;>
      simp_all [addProduct_db]
  · intro d p now
    rfl
  · intro p newId now h
    refine ⟨?_, ?_⟩
    · rw [P2.addProduct_db, h]
    · intro d
      rw [P2.addProduct_file, h]
  · intro d p now h
    cases hp : parseFloatVal p.price with
    | none => rw [hp] at h; cases h
    | some v => simp [P2.addProduct_file, hp]

/-- C2 witness: the part_002 file branch accepts the concrete nameless
input whose price is the string 5. -/
theorem c2_validation_witness :
    noNameProductIn.name = none ∧
    (P2.addProduct_file demoFileData noNameProductIn 7).isSome = true := by
  exact ⟨rfl, c2_validation_amended.2.2.2.2 demoFileData noNameProductIn 7 (by decide)⟩

/-- C3 counterexample: a successful authenticateUser call returns an
object that still contains the stored password field (the hash), so a
value returned by authenticate does contain a password field. -/
theorem c3_password_counterexample :
    (authenticateUser_db demoDbUsers "admin" "admin123").map UserOut.password =
      some (some (bcryptHash 1 "admin123")) := by
  decide

/-- C3 amended: authenticateUser returns either null or a User record that
still carries the stored password hash of the matched user, under both
backends; the password is stripped only by the login route, whose
responses never contain a password field. -/
theorem c3_password_amended :
    (∀ (users : List DbUserRow) (un pw : String) (out : UserOut),
       authenticateUser_db users un pw = some out →
         ∃ u, users.find? (fun x => x.username == un) = some u ∧
           out.password = some u.password) ∧
    (∀ (d : FileData) (un pw : String) (out : UserOut),
       authenticateUser_file d un pw = some out →
         ∃ u, d.users.find? (fun x => x.username == un) = some u ∧
           out.password = some u.password) ∧
    (∀ (users : List DbUserRow) (un pw : String) (out : UserOut),
       loginRoute_db users un pw = some out → out.password = none) ∧
    (∀ (d : FileData) (un pw : String) (out : UserOut),
       loginRoute_file d un pw = some out → out.password = none) := by
  refine ⟨?_, ?_, ?_, ?_⟩
  · intro users un pw out h
    rw [authenticateUser_db] at h
    cases hf : users.find? (fun x => x.username == un) with
    | none => rw [hf] at h; cases h
    | some u =>
      rw [hf] at h
      dsimp only at h
      by_cases hc : bcryptCompare pw u.password
      · rw [if_pos hc] at h
        cases h
        exact ⟨u, rfl, rfl⟩
      · rw [if_neg hc] at h; cases h
  · intro d un pw out h
    rw [authenticateUser_file] at h
    cases hf : d.users.find? (fun x => x.username == un) with
    | none => rw [hf] at h; cases h
    | some u =>
      rw [hf] at h
      dsimp only at h
      by_cases hc : bcryptCompare pw u.password
      · rw [if_pos hc] at h
        cases h
        exact ⟨u, rfl, rfl⟩
      · rw [if_neg hc] at h; cases h
  · intro users un pw out h
    rw [loginRoute_db] at h
    cases ha : authenticateUser_db users un pw with
    | none => rw [ha] at h; cases h
    | some u => rw [ha] at h; cases h; rfl
  · intro d un pw out h
    rw [loginRoute_file] at h
    cases ha : authenticateUser_file d un pw with
    | none => rw [ha] at h; cases h
    | some u => rw [ha] at h; cases h; rfl

/-- C3 witness: the login route response for the demo admin carries no
password field. -/
theorem c3_password_witness : demoLoginOut.password = none := by
  exact c3_password_amended.2.2.1 demoDbUsers "admin" "admin123" demoLoginOut (by decide)

/-- C5: for every record a successful authenticateUser call returns, the
canonical admin flag is some value equal to the falsy-or of the stored
admin-flag spellings (the camelCase source being absent on a relational
row), defaulting to false; registerUser always returns the flag as a
definite false.  It is never undefined. -/
theorem c5_admin_flag :
    (∀ (users : List DbUserRow) (un pw : String) (out : UserOut),
       authenticateUser_db users un pw = some out →
         ∃ u, users.find? (fun x => x.username == un) = some u ∧
           out.isAdmin = some (adminOr u.is_admin none)) ∧
    (∀ (d : FileData) (un pw : String) (out : UserOut),
       authenticateUser_file d un pw = some out →
         ∃ u, d.users.find? (fun x => x.username == un) = some u ∧
           out.isAdmin = some (adminOr u.isAdmin u.is_admin)) ∧
    (∀ (users : List DbUserRow) (un pw : String) (salt newId now : Nat) (out : UserOut),
       (registerUser_db users un pw salt newId now).1 = some out →
         out.isAdmin = some false ∧ out.is_admin = some false) ∧
    (∀ (d : FileData) (un pw : String) (salt : Nat) (out : UserOut),
       (registerUser_file d un pw salt).1 = some out →
         out.isAdmin = some false ∧ out.is_admin = some false) := by
  refine ⟨?_, ?_, ?_, ?_⟩
  · intro users un pw out h
    rw [authenticateUser_db] at h
    cases hf : users.find? (fun x => x.username == un) with
    | none => rw [hf] at h; cases h
    | some u =>
      rw [hf] at h
      dsimp only at h
      by_cases hc : bcryptCompare pw u.password
      · rw [if_pos hc] at h
        cases h
        exact ⟨u, rfl, rfl⟩
      · rw [if_neg hc] at h; cases h
  · intro d un pw out h
    rw [authenticateUser_file] at h
    cases hf : d.users.find? (fun x => x.username == un) with
    | none => rw [hf] at h; cases h
    | some u =>
      rw [hf] at h
      dsimp only at h
      by_cases hc : bcryptCompare pw u.password
      · rw [if_pos hc] at h
        cases h
        exact ⟨u, rfl, rfl⟩
      · rw [if_neg hc] at h; cases h
  · intro users un pw salt newId now out h
    rw [registerUser_db] at h
    by_cases he : users.any (fun u => u.username == un)
    · rw [if_pos he] at h; cases h
    · rw [if_neg he] at h
      cases h
      exact ⟨rfl, rfl⟩
  · intro d un pw salt out h
    rw [registerUser_file] at h
    by_cases he : d.users.any (fun u => u.username == un)
    · rw [if_pos he] at h; cases h
    · rw [if_neg he] at h
      cases h
      exact ⟨rfl, rfl⟩

/-- C5 witness: the authenticated demo admin record carries the canonical
flag resolved to true from its stored sources. -/
theorem c5_admin_flag_witness : demoAuthOut.isAdmin = some true := by
  obtain ⟨u, hu, hAdm⟩ :=
    c5_admin_flag.1 demoDbUsers "admin" "admin123" demoAuthOut (by decide)
  have hu2 : demoDbUsers.find? (fun x => x.username == "admin") = some demoAdminRow := by
    decide
  rw [hu] at hu2
  injection hu2 with h
  rw [hAdm, h]
  decide

/-- C7: registerUser returns null exactly when the username already exists
in the store, so a second registration of the same username always returns
null; every returned record stores the salted hash of the password, which
is never the plaintext.  Both backends behave alike. -/
theorem c7_register :
    (∀ (d : FileData) (un pw : String) (salt : Nat),
       (registerUser_file d un pw salt).1 = none ↔
         d.users.any (fun u => u.username == un) = true) ∧
    (∀ (d : FileData) (un pw1 pw2 : String) (s1 s2 : Nat),
       (registerUser_file (registerUser_file d un pw1 s1).2 un pw2 s2).1 = none) ∧
    (∀ (d : FileData) (un pw : String) (salt : Nat) (out : UserOut),
       (registerUser_file d un pw salt).1 = some out →
         out.password = some (bcryptHash salt pw) ∧ bcryptHash salt pw ≠ pw) ∧
    (∀ (users : List DbUserRow) (un pw : String) (salt newId now : Nat),
       (registerUser_db users un pw salt newId now).1 = none ↔
         users.any (fun u => u.username == un) = true) ∧
    (∀ (users : List DbUserRow) (un pw1 pw2 : String) (s1 n1 t1 s2 n2 t2 : Nat),
       (registerUser_db (registerUser_db users un pw1 s1 n1 t1).2 un pw2 s2 n2 t2).1 =
         none) ∧
    (∀ (users : List DbUserRow) (un pw : String) (salt newId now : Nat) (out : UserOut),
       (registerUser_db users un pw salt newId now).1 = some out →
         out.password = some (bcryptHash salt pw) ∧ bcryptHash salt pw ≠ pw) := by
  refine ⟨?_, ?_, ?_, ?_, ?_, ?_⟩
  · intro d un pw salt
    by_cases he : d.users.any (fun u => u.username == un) <;>
      simp [registerUser_file, he]
  · intro d un pw1 pw2 s1 s2
    by_cases he : d.users.any (fun u => u.username == un)
    · simp [registerUser_file, he]
    · simp [registerUser_file, he, List.any_append]
  · intro d un pw salt out h
    rw [registerUser_file] at h
    by_cases he : d.users.any (fun u => u.username == un)
    · rw [if_pos he] at h; cases h
    · rw [if_neg he] at h
      cases h
      exact ⟨rfl, bcryptHash_ne_plain salt pw⟩
  · intro users un pw salt newId now
    by_cases he : users.any (fun u => u.username == un) <;>
      simp [registerUser_db, he]
  · intro users un pw1 pw2 s1 n1 t1 s2 n2 t2
    by_cases he : users.any (fun u => u.username == un)
    · simp [registerUser_db, he]
    · simp [registerUser_db, he, List.any_append]
  · intro users un pw salt newId now out h
    rw [registerUser_db] at h
    by_cases he : users.any (fun u => u.username == un)
    · rw [if_pos he] at h; cases h
    · rw [if_neg he] at h
      cases h
      exact ⟨rfl, bcryptHash_ne_plain salt pw⟩

/-- C7 witness: registering bob in the fresh demo store returns the record
holding the salted hash, which differs from the plaintext. -/
theorem c7_register_witness :
    demoRegOut.password = some (bcryptHash 2 "pw111") ∧ bcryptHash 2 "pw111" ≠ "pw111" := by
  exact c7_register.2.2.1 demoFileData "bob" "pw111" 2 demoRegOut (by decide)

/-- C10: in the file backend a successful registerUser persists and
returns a user carrying only username, password hash and the two admin
flags — the identifier and the creation timestamp are absent. -/
theorem c10_file_user_shape :
    ∀ (d : FileData) (un pw : String) (salt : Nat),
      d.users.any (fun u => u.username == un) = false →
        (registerUser_file d un pw salt).1 =
          some { id := none, username := some un,
                 password := some (bcryptHash salt pw),
                 isAdmin := some false, is_admin := some false,
                 createdAt := none, lastLogin := none } ∧
        (registerUser_file d un pw salt).2.users =
          d.users ++ [{ id := none, username := un,
                        password := bcryptHash salt pw,
                        isAdmin := some false, is_admin := some false,
                        createdAt := none, lastLogin := none }] := by
  intro d un pw salt he
  rw [registerUser_file, if_neg (by simp [he])]
  exact ⟨rfl, rfl⟩

/-- C10 witness: registering carol in the demo store yields exactly the
identifier-free, timestamp-free record. -/
theorem c10_file_user_shape_witness :
    (registerUser_file demoFileData "carol" "pw333" 4).1 =
      some { id := none, username := some "carol",
             password := some (bcryptHash 4 "pw333"),
             isAdmin := some false, is_admin := some false,
             createdAt := none, lastLogin := none } := by
  exact (c10_file_user_shape demoFileData "carol" "pw333" 4 (by decide)).1

/-- C4 counterexample: with the empty order input, the relational branch
of addOrder fails (the NOT NULL snapshot columns receive null) and the
file branch stores an order whose status key is absent rather than
pending. -/
theorem c4_empty_order_counterexample :
    addOrder_db [] (ordersPost emptyOrderIn 1733123456789) 1 1733123456789 = none ∧
    (addOrder_file (some demoFileData) (ordersPost emptyOrderIn 1733123456789)
        1733123456789).map (fun x => x.1.status) = some none := by
  decide

/-- C4 amended: the route synthesizes the order number DD plus the last
eight digits of the epoch-millisecond time, and under the file backend
createOrder on the empty input succeeds, returning that order number with
synthesized id and createdAt while every other field — status included —
stays absent rather than defaulting; under the relational backend the same
call fails because product_name, product_price and total_amount are NOT
NULL. -/
theorem c4_empty_order_amended :
    ∀ (t newId now : Nat) (d : FileData) (rows : List DbOrderRow),
      (ordersPost emptyOrderIn t).orderNumber = some ("DD" ++ last8 t) ∧
      addOrder_db rows (ordersPost emptyOrderIn t) newId now = none ∧
      (addOrder_file (some d) (ordersPost emptyOrderIn t) t).map (fun x => x.1) =
        some { emptyOrderIn with orderNumber := some ("DD" ++ last8 t),
                                 id := some t, createdAt := some t } := by
  intro t newId now d rows
  refine ⟨rfl, rfl, rfl⟩

/-- C6: updating only the store name leaves every other settings field at
its prior value under both backends, and a following getSettings returns
the store name X. -/
theorem c6_settings_frame :
    (∀ d : FileData,
       getSettings_file (some (updateSettings_file d patchX).2) =
         some { d.settings with storeName := some "X" }) ∧
    (∀ row : DbSettingsRow,
       getSettings_db (updateSettings_db (some row) patchX).2 =
         some { row with store_name := "X" }) := by
  constructor
  · intro d
    obtain ⟨u, p, o, ⟨a, b, c, w⟩⟩ := d
    rfl
  · intro row
    obtain ⟨a, b, c, w⟩ := row
    rfl

/-- C9 counterexample: a stored store name that is present but empty is
not returned — the route substitutes the baked-in default, so a present
stored value is not always echoed back. -/
theorem c9_settings_counterexample :
    demoEmptyNameSettings.settings.storeName = some "" ∧
    (settingsGetRoute_file (some demoEmptyNameSettings)).storeName = defaultStoreName ∧
    defaultStoreName ≠ "" := by
  decide

/-- C9 amended: the settings route always returns a fully populated
object; a field is echoed back exactly when its stored value is present
and non-empty, and otherwise falls back to the per-field default of the
formatting chain — the baked-in store name for storeName and the empty
string for the other three fields; only when no settings record exists at
all is the full promotional default object returned. -/
theorem c9_settings_amended :
    (∀ (d : FileData) (v : String), v ≠ "" → d.settings.storeName = some v →
       (settingsGetRoute_file (some d)).storeName = v) ∧
    (∀ d : FileData, d.settings.storeName = none ∨ d.settings.storeName = some "" →
       (settingsGetRoute_file (some d)).storeName = defaultStoreName) ∧
    (∀ (d : FileData) (v : String), v ≠ "" → d.settings.kuaishouLink = some v →
       (settingsGetRoute_file (some d)).kuaishouLink = v) ∧
    (∀ d : FileData, d.settings.kuaishouLink = none ∨ d.settings.kuaishouLink = some "" →
       (settingsGetRoute_file (some d)).kuaishouLink = "") ∧
    (∀ (d : FileData) (v : String), v ≠ "" → d.settings.contactInfo = some v →
       (settingsGetRoute_file (some d)).contactInfo = v) ∧
    (∀ d : FileData, d.settings.contactInfo = none ∨ d.settings.contactInfo = some "" →
       (settingsGetRoute_file (some d)).contactInfo = "") ∧
    (∀ (d : FileData) (v : String), v ≠ "" → d.settings.welcomeMessage = some v →
       (settingsGetRoute_file (some d)).welcomeMessage = v) ∧
    (∀ d : FileData, d.settings.welcomeMessage = none ∨ d.settings.welcomeMessage = some "" →
       (settingsGetRoute_file (some d)).welcomeMessage = "") ∧
    settingsGetRoute_file none = fullDefaultSettingsOut ∧
    (∀ row : DbSettingsRow,
       (settingsGetRoute_db (some row)).storeName = jsStrOr row.store_name defaultStoreName ∧
       (settingsGetRoute_db (some row)).kuaishouLink = row.kuaishou_link ∧
       (settingsGetRoute_db (some row)).contactInfo = row.contact_info ∧
       (settingsGetRoute_db (some row)).welcomeMessage = row.welcome_message) ∧
    settingsGetRoute_db none = fullDefaultSettingsOut := by
  refine ⟨?_, ?_, ?_, ?_, ?_, ?_, ?_, ?_, rfl, ?_, rfl⟩
  · intro d v hv h
    simp [settingsGetRoute_file, getSettings_file, jsOptOr, jsStrOr, h, hv]
  · intro d h
    rcases h with h | h <;>
      simp [settingsGetRoute_file, getSettings_file, jsOptOr, jsStrOr, h]
  · intro d v hv h
    simp [settingsGetRoute_file, getSettings_file, jsOptOr, jsStrOr, h, hv]
  · intro d h
    rcases h with h | h <;>
      simp [settingsGetRoute_file, getSettings_file, jsOptOr, jsStrOr, h]
  · intro d v hv h
    simp [settingsGetRoute_file, getSettings_file, jsOptOr, jsStrOr, h, hv]
  · intro d h
    rcases h with h | h <;>
      simp [settingsGetRoute_file, getSettings_file, jsOptOr, jsStrOr, h]
  · intro d v hv h
    simp [settingsGetRoute_file, getSettings_file, jsOptOr, jsStrOr, h, hv]
  · intro d h
    rcases h with h | h <;>
      simp [settingsGetRoute_file, getSettings_file, jsOptOr, jsStrOr, h]
  · intro row
    refine ⟨rfl, ?_, ?_, ?_⟩ <;>
      by_cases h : row.kuaishou_link = "" <;>
      by_cases h2 : row.contact_info = "" <;>
      by_cases h3 : row.welcome_message = "" <;>
      simp [settingsGetRoute_db, getSettings_db, jsStrOr, h, h2, h3]

/-- C9 witness: the freshly initialized file store echoes back its stored
non-empty store name. -/
theorem c9_settings_witness :
    (settingsGetRoute_file (some demoFileData)).storeName = defaultStoreName := by
  exact c9_settings_amended.1 demoFileData defaultStoreName (by decide) (by decide)
